import Mathlib

/-!
Verification of the Reto-Piñón sketches.

The development embeds the original logic of the three Arduino/ESP32 sketches
of the repository:

* the joystick-controlled position broadcasters (`Transporte_publico`, in
  `src/unnamed/part_001`, and the `Auto_Veloz` sketch embedded in
  `src/Semaforos.ino`): threshold mapping of raw joystick samples to
  velocities, clamped position integration, and change-gated WebSocket
  broadcasting,
* the rain-sensor hysteresis gate of `src/Smart_house.ino`, and
* the fixed-phase traffic-light sequencer of `src/Semaforos.ino`.

Machine integers are modelled as `Int`; the Arduino `map` helper is modelled
with C truncating division (`Int.tdiv`), which is what the `long` arithmetic
of the platform implementation performs.
-/

/-- The Arduino `map` function, as implemented by the platform core:
`(x - in_min) * (out_max - out_min) / (in_max - in_min) + out_min`, where
`/` is C `long` division, i.e. truncation toward zero (`Int.tdiv`).
No rounding to nearest and no clamping of `x` is performed. -/
def arduinoMap (x in_min in_max out_min out_max : Int) : Int :=
  Int.tdiv ((x - in_min) * (out_max - out_min)) (in_max - in_min) + out_min

/-- The Arduino `constrain` function: `amt` clamped into `[low, high]`
(`amt < low ? low : (amt > high ? high : amt)`). -/
def constrain (amt low high : Int) : Int :=
  if amt < low then low else if amt > high then high else amt

/-- The joystick-to-velocity computation shared by both broadcaster sketches
(`loop` of `src/unnamed/part_001` and of the second sketch in
`src/Semaforos.ino`): samples above the dead zone `[lo, hi]` are mapped from
`[hi, 4095]` to `[1, vmax]`, samples below it from `[lo, 0]` to
`[-1, -vmax]`, and samples inside it give velocity `0`. -/
def velFromSample (lo hi vmax : Int) (v : Int) : Int :=
  if v > hi then arduinoMap v hi 4095 1 vmax
  else if v < lo then arduinoMap v lo 0 (-1) (-vmax)
  else 0

/-- Velocity mapping of the `Transporte_publico` sketch
(`src/unnamed/part_001`, lines 753-780): dead zone `[1800, 2200]`,
output range `[1, 4]`. -/
def velTransporte (v : Int) : Int := velFromSample 1800 2200 4 v

/-- Velocity mapping of the `Auto_Veloz` sketch (second sketch in
`src/Semaforos.ino`, lines 659-686): dead zone `[1500, 2300]`,
output range `[1, 6]`. -/
def velAutoVeloz (v : Int) : Int := velFromSample 1500 2300 6 v

/-- The mutable state of a broadcaster sketch: current position
(`posX`, `posY`) and last emitted position (`oldX`, `oldY`). -/
structure BusState where
  posX : Int
  posY : Int
  oldX : Int
  oldY : Int
deriving DecidableEq

/-- The JSON serialization performed by
`sprintf(bufferEnvio, "...x...:%d,...y...:%d", posX, posY)` in both sketches. -/
def serializePos (x y : Int) : String :=
  "\x7b\"x\":" ++ toString x ++ ",\"y\":" ++ toString y ++ "\x7d"

/-- One guarded update (one 33 ms / 50 ms tick) of a broadcaster sketch:
reads the two joystick samples, maps them to velocities, integrates and
clamps the position per axis, and broadcasts the serialized position if and
only if it differs from the last emitted one, updating `oldX`/`oldY` on
emission.  The returned `Option String` is the message broadcast by
`webSocket.broadcastTXT`, if any. -/
def tickJoy (lo hi vmax xmin xmax ymin ymax : Int) (s : BusState)
    (xVal yVal : Int) : BusState × Option String :=
  let velX := velFromSample lo hi vmax xVal
  let velY := velFromSample lo hi vmax yVal
  let posX := constrain (s.posX + velX) xmin xmax
  let posY := constrain (s.posY + velY) ymin ymax
  if posX ≠ s.oldX ∨ posY ≠ s.oldY then
    ({ posX := posX, posY := posY, oldX := posX, oldY := posY },
      some (serializePos posX posY))
  else
    ({ posX := posX, posY := posY, oldX := s.oldX, oldY := s.oldY }, none)

/-- Tick of `src/unnamed/part_001`: dead zone `[1800, 2200]`, velocities in
`[1, 4]`, position clamped to `[20, 347] × [20, 389]` (lines 789-795). -/
def tickTransporte (s : BusState) (xVal yVal : Int) : BusState × Option String :=
  tickJoy 1800 2200 4 20 347 20 389 s xVal yVal

/-- Tick of the `Auto_Veloz` sketch in `src/Semaforos.ino`: dead zone
`[1500, 2300]`, velocities in `[1, 6]`, position clamped to
`[0, 380] × [0, 380]` (lines 694-705 of the joystick sketch). -/
def tickAutoVeloz (s : BusState) (xVal yVal : Int) : BusState × Option String :=
  tickJoy 1500 2300 6 0 380 0 380 s xVal yVal

/-- Initial state of `src/unnamed/part_001` (lines 63-67):
`posX = 211`, `posY = 205`, `oldX = 0`, `oldY = 0`. -/
def initTransporte : BusState := { posX := 211, posY := 205, oldX := 0, oldY := 0 }

/-- Initial state of the `Auto_Veloz` sketch in `src/Semaforos.ino`
(lines 311-316 of the file): `posX = 190`, `posY = 190`, `oldX = 0`,
`oldY = 0`. -/
def initAutoVeloz : BusState := { posX := 190, posY := 190, oldX := 0, oldY := 0 }

/-- A run of a broadcaster sketch over a list of joystick sample pairs:
the list of (state after the tick, message emitted by the tick). -/
def runJoy (lo hi vmax xmin xmax ymin ymax : Int) :
    BusState → List (Int × Int) → List (BusState × Option String)
  | _, [] => []
  | s, (x, y) :: rest =>
    tickJoy lo hi vmax xmin xmax ymin ymax s x y ::
      runJoy lo hi vmax xmin xmax ymin ymax
        (tickJoy lo hi vmax xmin xmax ymin ymax s x y).1 rest

/-- Run of `src/unnamed/part_001`. -/
def runTransporte : BusState → List (Int × Int) → List (BusState × Option String) :=
  runJoy 1800 2200 4 20 347 20 389

/-- Run of the `Auto_Veloz` sketch in `src/Semaforos.ino`. -/
def runAutoVeloz : BusState → List (Int × Int) → List (BusState × Option String) :=
  runJoy 1500 2300 6 0 380 0 380

/-- Modelled from the spec: "Broadcaster: emits exactly one message per
distinct position value, zero messages for repeated identical positions" —
the number of ticks of a run whose post-integration position differs from
the last emitted position.  Defined for comparison with the number of
messages the embedded code actually broadcasts. -/
def specChangeCount (lo hi vmax xmin xmax ymin ymax : Int) :
    BusState → List (Int × Int) → Nat
  | _, [] => 0
  | s, (x, y) :: rest =>
    (if (tickJoy lo hi vmax xmin xmax ymin ymax s x y).1.posX ≠ s.oldX ∨
        (tickJoy lo hi vmax xmin xmax ymin ymax s x y).1.posY ≠ s.oldY
     then 1 else 0) +
      specChangeCount lo hi vmax xmin xmax ymin ymax
        (tickJoy lo hi vmax xmin xmax ymin ymax s x y).1 rest

/-- Modelled from the spec: the Threshold Mapper as §4.1 of the spec
describes it for the `Transporte_publico` instance — the input is first
clamped into the declared raw range `[0, 4095]`, and the linear map rounds
its result toward the nearest integer (here: round half away from the dead
zone).  This definition follows the spec's words, not the source; it exists
only to be compared with `velTransporte`. -/
def specVelTransporte (v : Int) : Int :=
  let vc := constrain v 0 4095
  if vc > 2200 then (2 * ((vc - 2200) * 3) + 1895) / (2 * 1895) + 1
  else if vc < 1800 then -((2 * ((1800 - vc) * 3) + 1800) / (2 * 1800)) - 1
  else 0

/-- Servo angle constants of `src/Smart_house.ino` (lines 77-88). -/
def OPEN_ANGLE : Int := 95

/-- Closed angle of the main window servo. -/
def CLOSE_ANGLE : Int := 180

/-- Open angle of the rain-window servo (`myServo_1`). -/
def OPEN_ANGLE_W : Int := 95

/-- Closed angle of the rain-window servo (`myServo_1`). -/
def CLOSE_ANGLE_W : Int := 0

/-- Open angle of the third servo. -/
def OPEN_ANGLE_D : Int := 100

/-- Closed angle of the third servo. -/
def CLOSE_ANGLE_D : Int := 180

/-- Lower hysteresis threshold of the rain sensor (line 110). -/
def UMBRAL_LLUVIA_BAJO : Int := 50

/-- Upper hysteresis threshold of the rain sensor (line 113). -/
def UMBRAL_LLUVIA_ALTO : Int := 150

/-- Arduino digital `LOW` level; `digitalRead` of a pressed pull-up button. -/
def LOW : Int := 0

/-- The mutable state of `src/Smart_house.ino`: the two state flags and the
angle most recently written to each of the three servos. -/
structure HouseState where
  ventana_lluvia_abierta : Bool
  tercer_servo_abierto : Bool
  mainServoAngle : Int
  rainServoAngle : Int
  doorServoAngle : Int
deriving DecidableEq

/-- State after `setup()` of `src/Smart_house.ino` (lines 150-176): the
flags keep their initializers (`true` on line 132, `false` on line 137) and
the servos are written `OPEN_ANGLE`, `OPEN_ANGLE_W`, `CLOSE_ANGLE_D`. -/
def houseSetupState : HouseState :=
  { ventana_lluvia_abierta := true
    tercer_servo_abierto := false
    mainServoAngle := OPEN_ANGLE
    rainServoAngle := OPEN_ANGLE_W
    doorServoAngle := CLOSE_ANGLE_D }

/-- System 1 of `loop()` (lines 212-223): the green button directly drives
the main window servo. -/
def mainWindowStep (s : HouseState) (buttonState : Int) : HouseState :=
  if buttonState = LOW then { s with mainServoAngle := CLOSE_ANGLE }
  else { s with mainServoAngle := OPEN_ANGLE }

/-- System 2 of `loop()` (lines 240-253): the red button toggles the third
servo. -/
def doorToggleStep (s : HouseState) (buttonState_red : Int) : HouseState :=
  if buttonState_red = LOW then
    if s.tercer_servo_abierto = false then
      { s with doorServoAngle := OPEN_ANGLE_D, tercer_servo_abierto := true }
    else
      { s with doorServoAngle := CLOSE_ANGLE_D, tercer_servo_abierto := false }
  else s

/-- System 3 of `loop()` (lines 276-291), the hysteresis branch: a sample
below `UMBRAL_LLUVIA_BAJO` closes the open rain window, a sample above
`UMBRAL_LLUVIA_ALTO` opens the closed one, anything else changes nothing;
the servo write and the flag update happen in the same branch. -/
def rainWindowStep (s : HouseState) (valorHumedad : Int) : HouseState :=
  if valorHumedad < UMBRAL_LLUVIA_BAJO ∧ s.ventana_lluvia_abierta = true then
    { s with rainServoAngle := CLOSE_ANGLE_W, ventana_lluvia_abierta := false }
  else if valorHumedad > UMBRAL_LLUVIA_ALTO ∧ s.ventana_lluvia_abierta = false then
    { s with rainServoAngle := OPEN_ANGLE_W, ventana_lluvia_abierta := true }
  else s

/-- One iteration of `loop()` of `src/Smart_house.ino`, on the three inputs
read at its top (green button, red button, rain sensor). -/
def houseLoop (s : HouseState) (buttonState buttonState_red valorHumedad : Int) :
    HouseState :=
  rainWindowStep (doorToggleStep (mainWindowStep s buttonState) buttonState_red)
    valorHumedad

/-- The Hysteresis Gate reduced to its state flag: the new value of
`ventana_lluvia_abierta` computed by the hysteresis branch from the old
value and the sensor sample (`true` = OPEN, `false` = CLOSED). -/
def hystStep (abierta : Bool) (valorHumedad : Int) : Bool :=
  if valorHumedad < UMBRAL_LLUVIA_BAJO ∧ abierta = true then false
  else if valorHumedad > UMBRAL_LLUVIA_ALTO ∧ abierta = false then true
  else abierta

/-- The initializer of the gate's flag (`src/Smart_house.ino`, line 132):
the window starts OPEN. -/
def ventanaLluviaAbiertaInit : Bool := true

/-- The successive states of the Hysteresis Gate along a sample sequence,
starting state included: `hystStates b vs` has length `vs.length + 1` and
its `i`-th entry is the state before sample `i` is processed. -/
def hystStates (abierta : Bool) : List Int → List Bool
  | [] => [abierta]
  | v :: vs => abierta :: hystStates (hystStep abierta v) vs

/-- The states of `src/Smart_house.ino` after setup and after each loop
iteration, on a list of `(buttonState, buttonState_red, valorHumedad)`
input triples. -/
def houseTrace (s : HouseState) : List (Int × Int × Int) → List HouseState
  | [] => [s]
  | (b, r, v) :: rest => s :: houseTrace (houseLoop s b r v) rest

/-- The 12 LEDs of the four traffic lights of `src/Semaforos.ino`
(`true` = LED on).  S1/S2 face Av. Patria, S3/S4 face Av. Mariano Otero. -/
structure LampState where
  s1_rojo : Bool
  s1_amarillo : Bool
  s1_verde : Bool
  s2_rojo : Bool
  s2_amarillo : Bool
  s2_verde : Bool
  s3_rojo : Bool
  s3_amarillo : Bool
  s3_verde : Bool
  s4_rojo : Bool
  s4_amarillo : Bool
  s4_verde : Bool
deriving DecidableEq

/-- The `todosRojo()` procedure of `src/Semaforos.ino` (lines 264-286):
writes all twelve LEDs, turning every green and yellow off and every
red on. -/
def todosRojo (s : LampState) : LampState :=
  { s with
    s1_verde := false, s1_amarillo := false, s1_rojo := true
    s2_verde := false, s2_amarillo := false, s2_rojo := true
    s3_verde := false, s3_amarillo := false, s3_rojo := true
    s4_verde := false, s4_amarillo := false, s4_rojo := true }

/-- The all-red configuration. -/
def allRedState : LampState :=
  { s1_rojo := true, s1_amarillo := false, s1_verde := false
    s2_rojo := true, s2_amarillo := false, s2_verde := false
    s3_rojo := true, s3_amarillo := false, s3_verde := false
    s4_rojo := true, s4_amarillo := false, s4_verde := false }

/-- State after `setup()` of `src/Semaforos.ino` (lines 86-117): whatever
the LEDs held at power-on, `todosRojo()` is invoked before the first loop
iteration. -/
def semaforosSetup (s : LampState) : LampState := todosRojo s

/-- Dwell times of `src/Semaforos.ino` (lines 67-73), in milliseconds. -/
def tiempo_verde : Nat := 5000

/-- Yellow dwell time (2 s). -/
def tiempo_amarillo : Nat := 2000

/-- All-red safety dwell time (1 s). -/
def tiempo_seguridad : Nat := 1000

/-- The six configurations displayed during one `loop()` iteration of
`src/Semaforos.ino` (lines 131-243), each paired with the duration of the
`delay` that holds it, in the order the writes occur:
phase A green, phase A yellow, all red, phase B green, phase B yellow,
all red.  Each configuration applies exactly the `digitalWrite` calls of
the corresponding block to the previous one. -/
def loopSegments (s0 : LampState) : List (LampState × Nat) :=
  let a := { s0 with s1_rojo := false, s1_verde := true,
                     s2_rojo := false, s2_verde := true,
                     s3_rojo := true, s4_rojo := true }
  let b := { a with s1_verde := false, s1_amarillo := true,
                    s2_verde := false, s2_amarillo := true }
  let c := { b with s1_amarillo := false, s1_rojo := true,
                    s2_amarillo := false, s2_rojo := true }
  let d := { c with s3_rojo := false, s3_verde := true,
                    s4_rojo := false, s4_verde := true }
  let e := { d with s3_verde := false, s3_amarillo := true,
                    s4_verde := false, s4_amarillo := true }
  let f := { e with s3_amarillo := false, s3_rojo := true,
                    s4_amarillo := false, s4_rojo := true }
  [(a, tiempo_verde), (b, tiempo_amarillo), (c, tiempo_seguridad),
   (d, tiempo_verde), (e, tiempo_amarillo), (f, tiempo_seguridad)]

/-- The LED state at the end of one `loop()` iteration. -/
def loopFinal (s0 : LampState) : LampState :=
  ((loopSegments s0).getLast? ).map Prod.fst |>.getD s0

/-- The LED state after `n` complete `loop()` iterations from `s0`. -/
def afterLoops (s0 : LampState) : Nat → LampState
  | 0 => s0
  | n + 1 => loopFinal (afterLoops s0 n)

/-- Every configuration displayed from boot through `n` loop iterations,
with its dwell duration: the post-`setup` all-red state (held by the
`delay(2000)` on line 116) followed by the segments of each iteration. -/
def semaforosTrace (s : LampState) : Nat → List (LampState × Nat)
  | 0 => [(semaforosSetup s, 2000)]
  | n + 1 => semaforosTrace s n ++ loopSegments (afterLoops (semaforosSetup s) n)

/-- Two conflicting directions show green at the same time. -/
def conflictingGreens (l : LampState) : Prop :=
  (l.s1_verde = true ∨ l.s2_verde = true) ∧ (l.s3_verde = true ∨ l.s4_verde = true)

instance (l : LampState) : Decidable (conflictingGreens l) := by
  unfold conflictingGreens; infer_instance

/-! ### Helper lemmas -/

lemma tdiv_eq_ediv_of_nonneg (a b : Int) (h : 0 ≤ a) : Int.tdiv a b = a / b := by
  match a, b with
  | Int.ofNat m, Int.ofNat n => rfl
  | Int.ofNat m, Int.negSucc n => rfl
  | Int.negSucc m, _ => exact absurd h (by simp)

lemma constrain_bounds (amt low high : Int) (h : low ≤ high) :
    low ≤ constrain amt low high ∧ constrain amt low high ≤ high := by
  unfold constrain; split_ifs <;> omega

lemma velFromSample_pos_eq (lo hi vmax v : Int) (h : hi < v) (h1 : 1 ≤ vmax) :
    velFromSample lo hi vmax v = (v - hi) * (vmax - 1) / (4095 - hi) + 1 := by
  simp only [velFromSample, if_pos h, arduinoMap]
  rw [tdiv_eq_ediv_of_nonneg _ _ (mul_nonneg (by omega) (by omega))]

lemma velFromSample_mono (lo hi vmax v1 v2 : Int) (hhi : hi < 4095) (h1 : 1 ≤ vmax)
    (hv1 : hi < v1) (h12 : v1 ≤ v2) :
    velFromSample lo hi vmax v1 ≤ velFromSample lo hi vmax v2 := by
  rw [velFromSample_pos_eq lo hi vmax v1 hv1 h1,
    velFromSample_pos_eq lo hi vmax v2 (lt_of_lt_of_le hv1 h12) h1]
  have hd : (0 : Int) < 4095 - hi := by omega
  have hm : (v1 - hi) * (vmax - 1) ≤ (v2 - hi) * (vmax - 1) :=
    mul_le_mul_of_nonneg_right (by omega) (by omega)
  have := Int.ediv_le_ediv hd hm
  omega

lemma velFromSample_le_vmax (lo hi vmax v : Int) (hhi : hi < 4095) (h1 : 1 ≤ vmax)
    (hv : hi < v) (hle : v ≤ 4095) :
    velFromSample lo hi vmax v ≤ vmax := by
  rw [velFromSample_pos_eq lo hi vmax v hv h1]
  have hd : (0 : Int) < 4095 - hi := by omega
  have hm : (v - hi) * (vmax - 1) ≤ (4095 - hi) * (vmax - 1) :=
    mul_le_mul_of_nonneg_right (by omega) (by omega)
  have h2 := Int.ediv_le_ediv hd hm
  have h3 : (4095 - hi) * (vmax - 1) / (4095 - hi) = vmax - 1 :=
    Int.mul_ediv_cancel_left _ (by omega)
  omega

/-! ### Claims about the Threshold Mapper -/

/-- Claim C1: the Threshold Mapper is the piecewise function of the spec —
above the dead zone it is the linear map from `[hi, rawMax]` to `[1, max]`,
below it the linear map from `[lo, 0]` to `[-1, -max]`, inside it the
output is `0`; with dead zone `[1800, 2200]` and range `[1, 4]`, sample
`4095` gives `4`, sample `0` gives `-4` and sample `2000` gives `0`. -/
theorem C1_threshold_mapper_piecewise :
    (∀ v : Int,
      (v > 2200 → velTransporte v = arduinoMap v 2200 4095 1 4) ∧
      (v < 1800 → velTransporte v = arduinoMap v 1800 0 (-1) (-4)) ∧
      (1800 ≤ v → v ≤ 2200 → velTransporte v = 0)) ∧
    (∀ v : Int,
      (v > 2300 → velAutoVeloz v = arduinoMap v 2300 4095 1 6) ∧
      (v < 1500 → velAutoVeloz v = arduinoMap v 1500 0 (-1) (-6)) ∧
      (1500 ≤ v → v ≤ 2300 → velAutoVeloz v = 0)) ∧
    velTransporte 4095 = 4 ∧ velTransporte 0 = -4 ∧ velTransporte 2000 = 0 := by
  refine ⟨fun v => ⟨fun h => ?_, fun h => ?_, fun h1 h2 => ?_⟩,
    fun v => ⟨fun h => ?_, fun h => ?_, fun h1 h2 => ?_⟩,
    by decide, by decide, by decide⟩
  · simp only [velTransporte, velFromSample, if_pos h]
  · simp only [velTransporte, velFromSample]
    rw [if_neg (by omega), if_pos h]
  · simp only [velTransporte, velFromSample]
    rw [if_neg (by omega), if_neg (by omega)]
  · simp only [velAutoVeloz, velFromSample, if_pos h]
  · simp only [velAutoVeloz, velFromSample]
    rw [if_neg (by omega), if_pos h]
  · simp only [velAutoVeloz, velFromSample]
    rw [if_neg (by omega), if_neg (by omega)]

/-- Witness for C1 at concrete samples. -/
theorem C1_threshold_mapper_piecewise_witness :
    velTransporte 4000 = arduinoMap 4000 2200 4095 1 4 ∧
    velAutoVeloz 1000 = arduinoMap 1000 1500 0 (-1) (-6) :=
  ⟨(C1_threshold_mapper_piecewise.1 4000).1 (by decide),
   (C1_threshold_mapper_piecewise.2.1 1000).2.1 (by decide)⟩

/-- Claim C2 counterexample: the mapper of the source does not round to
nearest and does not clamp.  At sample `4094` the code yields `3` while the
spec's rounded-and-clamped map (`specVelTransporte`) yields `4`; at the
out-of-range sample `5000` the code yields `5` (beyond `max = 4`) while the
spec's map yields `4`. -/
theorem C2_counterexample :
    velTransporte 4094 = 3 ∧ specVelTransporte 4094 = 4 ∧
    velTransporte 4094 ≠ specVelTransporte 4094 ∧
    velTransporte 5000 = 5 ∧ specVelTransporte 5000 = 4 ∧
    velTransporte 5000 ≠ specVelTransporte 5000 := by decide

/-- Claim C2 amended: the linear map truncates its result toward zero
(C `long` division) instead of rounding to nearest — above the dead zone
the output is the floor-divided linear map, below it the negated
floor-divided magnitude — and samples are not clamped before mapping:
the out-of-range sample `5000` produces `5`, exceeding `max = 4`. -/
theorem C2_truncation_no_clamping :
    (∀ v : Int, 2200 < v → velTransporte v = (v - 2200) * 3 / 1895 + 1) ∧
    (∀ v : Int, v < 1800 → velTransporte v = -((1800 - v) * 3 / 1800) - 1) ∧
    velTransporte 5000 = 5 := by
  refine ⟨fun v h => ?_, fun v h => ?_, by decide⟩
  · have := velFromSample_pos_eq 1800 2200 4 v h (by omega)
    simpa [velTransporte] using this
  · simp only [velTransporte, velFromSample]
    rw [if_neg (by omega), if_pos h]
    simp only [arduinoMap]
    have e1 : (v - 1800) * ((-4 : Int) - -1) = (1800 - v) * 3 := by ring
    have e2 : ((0 : Int) - 1800) = -1800 := by norm_num
    rw [e1, e2, Int.tdiv_neg,
      tdiv_eq_ediv_of_nonneg _ _ (mul_nonneg (by omega) (by norm_num))]
    omega

/-- Witness for the amended C2 at concrete samples. -/
theorem C2_truncation_no_clamping_witness :
    velTransporte 4000 = (4000 - 2200) * 3 / 1895 + 1 ∧
    velTransporte 0 = -((1800 - 0) * 3 / 1800) - 1 :=
  ⟨C2_truncation_no_clamping.1 4000 (by decide),
   C2_truncation_no_clamping.2.1 0 (by decide)⟩

/-- Claim C7: above the dead zone the Threshold Mapper is monotonically
non-decreasing in the sample and bounded by `max` (`4` in the
`Transporte_publico` sketch, `6` in the `Auto_Veloz` sketch). -/
theorem C7_mapper_monotone_bounded :
    (∀ v1 v2 : Int, 2200 < v1 → v1 ≤ v2 → v2 ≤ 4095 →
      velTransporte v1 ≤ velTransporte v2) ∧
    (∀ v : Int, 2200 < v → v ≤ 4095 → velTransporte v ≤ 4) ∧
    (∀ v1 v2 : Int, 2300 < v1 → v1 ≤ v2 → v2 ≤ 4095 →
      velAutoVeloz v1 ≤ velAutoVeloz v2) ∧
    (∀ v : Int, 2300 < v → v ≤ 4095 → velAutoVeloz v ≤ 6) := by
  refine ⟨fun v1 v2 h1 h12 _ => ?_, fun v h1 h2 => ?_,
    fun v1 v2 h1 h12 _ => ?_, fun v h1 h2 => ?_⟩
  · exact velFromSample_mono 1800 2200 4 v1 v2 (by omega) (by omega) h1 h12
  · exact velFromSample_le_vmax 1800 2200 4 v (by omega) (by omega) h1 h2
  · exact velFromSample_mono 1500 2300 6 v1 v2 (by omega) (by omega) h1 h12
  · exact velFromSample_le_vmax 1500 2300 6 v (by omega) (by omega) h1 h2

/-- Witness for C7 at concrete samples. -/
theorem C7_mapper_monotone_bounded_witness :
    velTransporte 3000 ≤ velTransporte 4000 ∧ velTransporte 4095 ≤ 4 ∧
    velAutoVeloz 3000 ≤ velAutoVeloz 4000 ∧ velAutoVeloz 4095 ≤ 6 :=
  ⟨C7_mapper_monotone_bounded.1 3000 4000 (by decide) (by decide) (by decide),
   C7_mapper_monotone_bounded.2.1 4095 (by decide) (by decide),
   C7_mapper_monotone_bounded.2.2.1 3000 4000 (by decide) (by decide) (by decide),
   C7_mapper_monotone_bounded.2.2.2 4095 (by decide) (by decide)⟩

/-! ### Claims about the Position Integrator and the Broadcaster -/

lemma tickJoy_emit (lo hi vmax xmin xmax ymin ymax : Int) (s : BusState) (x y : Int)
    (h : constrain (s.posX + velFromSample lo hi vmax x) xmin xmax ≠ s.oldX ∨
      constrain (s.posY + velFromSample lo hi vmax y) ymin ymax ≠ s.oldY) :
    tickJoy lo hi vmax xmin xmax ymin ymax s x y =
      ({ posX := constrain (s.posX + velFromSample lo hi vmax x) xmin xmax
         posY := constrain (s.posY + velFromSample lo hi vmax y) ymin ymax
         oldX := constrain (s.posX + velFromSample lo hi vmax x) xmin xmax
         oldY := constrain (s.posY + velFromSample lo hi vmax y) ymin ymax },
       some (serializePos (constrain (s.posX + velFromSample lo hi vmax x) xmin xmax)
         (constrain (s.posY + velFromSample lo hi vmax y) ymin ymax))) := by
  simp only [tickJoy]
  rw [if_pos h]

lemma tickJoy_skip (lo hi vmax xmin xmax ymin ymax : Int) (s : BusState) (x y : Int)
    (h : ¬(constrain (s.posX + velFromSample lo hi vmax x) xmin xmax ≠ s.oldX ∨
      constrain (s.posY + velFromSample lo hi vmax y) ymin ymax ≠ s.oldY)) :
    tickJoy lo hi vmax xmin xmax ymin ymax s x y =
      ({ posX := constrain (s.posX + velFromSample lo hi vmax x) xmin xmax
         posY := constrain (s.posY + velFromSample lo hi vmax y) ymin ymax
         oldX := s.oldX
         oldY := s.oldY }, none) := by
  simp only [tickJoy]
  rw [if_neg h]

lemma tickJoy_posX (lo hi vmax xmin xmax ymin ymax : Int) (s : BusState) (x y : Int) :
    (tickJoy lo hi vmax xmin xmax ymin ymax s x y).1.posX =
      constrain (s.posX + velFromSample lo hi vmax x) xmin xmax := by
  by_cases h : constrain (s.posX + velFromSample lo hi vmax x) xmin xmax ≠ s.oldX ∨
      constrain (s.posY + velFromSample lo hi vmax y) ymin ymax ≠ s.oldY
  · rw [tickJoy_emit lo hi vmax xmin xmax ymin ymax s x y h]
  · rw [tickJoy_skip lo hi vmax xmin xmax ymin ymax s x y h]

lemma tickJoy_posY (lo hi vmax xmin xmax ymin ymax : Int) (s : BusState) (x y : Int) :
    (tickJoy lo hi vmax xmin xmax ymin ymax s x y).1.posY =
      constrain (s.posY + velFromSample lo hi vmax y) ymin ymax := by
  by_cases h : constrain (s.posX + velFromSample lo hi vmax x) xmin xmax ≠ s.oldX ∨
      constrain (s.posY + velFromSample lo hi vmax y) ymin ymax ≠ s.oldY
  · rw [tickJoy_emit lo hi vmax xmin xmax ymin ymax s x y h]
  · rw [tickJoy_skip lo hi vmax xmin xmax ymin ymax s x y h]

lemma runJoy_bounds (lo hi vmax xmin xmax ymin ymax : Int)
    (hx : xmin ≤ xmax) (hy : ymin ≤ ymax) :
    ∀ (inputs : List (Int × Int)) (s : BusState),
      ∀ p ∈ runJoy lo hi vmax xmin xmax ymin ymax s inputs,
        xmin ≤ p.1.posX ∧ p.1.posX ≤ xmax ∧ ymin ≤ p.1.posY ∧ p.1.posY ≤ ymax := by
  intro inputs
  induction inputs with
  | nil => intro s p hp; simp [runJoy] at hp
  | cons hd rest ih =>
    intro s p hp
    obtain ⟨x, y⟩ := hd
    rw [runJoy, List.mem_cons] at hp
    rcases hp with hp | hp
    · subst hp
      rw [tickJoy_posX, tickJoy_posY]
      have h1 := constrain_bounds (s.posX + velFromSample lo hi vmax x) xmin xmax hx
      have h2 := constrain_bounds (s.posY + velFromSample lo hi vmax y) ymin ymax hy
      exact ⟨h1.1, h1.2, h2.1, h2.2⟩
    · exact ih _ p hp

/-- Claim C3: each tick clamps `position + velocity` into the configured
bounds independently per axis; the clamp keeps any position with any
velocity inside the bounds; and along every run from an in-bounds initial
position every post-tick position stays inside the bounds, in both
sketches. -/
theorem C3_position_integrator :
    (∀ (s : BusState) (x y : Int),
      (tickTransporte s x y).1.posX = constrain (s.posX + velTransporte x) 20 347 ∧
      (tickTransporte s x y).1.posY = constrain (s.posY + velTransporte y) 20 389 ∧
      (tickAutoVeloz s x y).1.posX = constrain (s.posX + velAutoVeloz x) 0 380 ∧
      (tickAutoVeloz s x y).1.posY = constrain (s.posY + velAutoVeloz y) 0 380) ∧
    (∀ p v bmin bmax : Int, bmin ≤ bmax →
      bmin ≤ constrain (p + v) bmin bmax ∧ constrain (p + v) bmin bmax ≤ bmax) ∧
    (∀ (s0 : BusState) (inputs : List (Int × Int)),
      20 ≤ s0.posX → s0.posX ≤ 347 → 20 ≤ s0.posY → s0.posY ≤ 389 →
      ∀ p ∈ runTransporte s0 inputs,
        20 ≤ p.1.posX ∧ p.1.posX ≤ 347 ∧ 20 ≤ p.1.posY ∧ p.1.posY ≤ 389) ∧
    (∀ (s0 : BusState) (inputs : List (Int × Int)),
      0 ≤ s0.posX → s0.posX ≤ 380 → 0 ≤ s0.posY → s0.posY ≤ 380 →
      ∀ p ∈ runAutoVeloz s0 inputs,
        0 ≤ p.1.posX ∧ p.1.posX ≤ 380 ∧ 0 ≤ p.1.posY ∧ p.1.posY ≤ 380) := by
  refine ⟨fun s x y => ⟨?_, ?_, ?_, ?_⟩, fun p v bmin bmax h => constrain_bounds _ _ _ h,
    fun s0 inputs _ _ _ _ => ?_, fun s0 inputs _ _ _ _ => ?_⟩
  · exact tickJoy_posX 1800 2200 4 20 347 20 389 s x y
  · exact tickJoy_posY 1800 2200 4 20 347 20 389 s x y
  · exact tickJoy_posX 1500 2300 6 0 380 0 380 s x y
  · exact tickJoy_posY 1500 2300 6 0 380 0 380 s x y
  · exact runJoy_bounds 1800 2200 4 20 347 20 389 (by omega) (by omega) inputs s0
  · exact runJoy_bounds 1500 2300 6 0 380 0 380 (by omega) (by omega) inputs s0

/-- Witness for C3 on a concrete run. -/
theorem C3_position_integrator_witness :
    20 ≤ (tickTransporte initTransporte 4095 0).1.posX ∧
    (tickTransporte initTransporte 4095 0).1.posX ≤ 347 ∧
    20 ≤ (tickTransporte initTransporte 4095 0).1.posY ∧
    (tickTransporte initTransporte 4095 0).1.posY ≤ 389 :=
  C3_position_integrator.2.2.1 initTransporte [(4095, 0)] (by decide) (by decide)
    (by decide) (by decide) (tickTransporte initTransporte 4095 0) (by decide)

lemma tickJoy_gate (lo hi vmax xmin xmax ymin ymax : Int) (s : BusState) (x y : Int) :
    ((tickJoy lo hi vmax xmin xmax ymin ymax s x y).2 =
        some (serializePos (tickJoy lo hi vmax xmin xmax ymin ymax s x y).1.posX
          (tickJoy lo hi vmax xmin xmax ymin ymax s x y).1.posY) ↔
      ((tickJoy lo hi vmax xmin xmax ymin ymax s x y).1.posX ≠ s.oldX ∨
        (tickJoy lo hi vmax xmin xmax ymin ymax s x y).1.posY ≠ s.oldY)) ∧
    (((tickJoy lo hi vmax xmin xmax ymin ymax s x y).1.posX ≠ s.oldX ∨
        (tickJoy lo hi vmax xmin xmax ymin ymax s x y).1.posY ≠ s.oldY) →
      (tickJoy lo hi vmax xmin xmax ymin ymax s x y).1.oldX =
          (tickJoy lo hi vmax xmin xmax ymin ymax s x y).1.posX ∧
        (tickJoy lo hi vmax xmin xmax ymin ymax s x y).1.oldY =
          (tickJoy lo hi vmax xmin xmax ymin ymax s x y).1.posY) ∧
    (((tickJoy lo hi vmax xmin xmax ymin ymax s x y).1.posX = s.oldX ∧
        (tickJoy lo hi vmax xmin xmax ymin ymax s x y).1.posY = s.oldY) →
      (tickJoy lo hi vmax xmin xmax ymin ymax s x y).2 = none ∧
        (tickJoy lo hi vmax xmin xmax ymin ymax s x y).1.oldX = s.oldX ∧
        (tickJoy lo hi vmax xmin xmax ymin ymax s x y).1.oldY = s.oldY) := by
  by_cases hc : constrain (s.posX + velFromSample lo hi vmax x) xmin xmax ≠ s.oldX ∨
      constrain (s.posY + velFromSample lo hi vmax y) ymin ymax ≠ s.oldY
  · rw [tickJoy_emit lo hi vmax xmin xmax ymin ymax s x y hc]
    refine ⟨by simpa using hc, fun _ => ⟨rfl, rfl⟩, fun h => absurd hc (by simp at h ⊢; omega)⟩
  · rw [tickJoy_skip lo hi vmax xmin xmax ymin ymax s x y hc]
    push_neg at hc
    refine ⟨by simp [hc.1, hc.2], fun h => absurd h (by simp [hc.1, hc.2]),
      fun _ => ⟨rfl, rfl, rfl⟩⟩

lemma runJoy_countP (lo hi vmax xmin xmax ymin ymax : Int) :
    ∀ (inputs : List (Int × Int)) (s : BusState),
      (runJoy lo hi vmax xmin xmax ymin ymax s inputs).countP (fun r => r.2.isSome) =
        specChangeCount lo hi vmax xmin xmax ymin ymax s inputs := by
  intro inputs
  induction inputs with
  | nil => intro s; rfl
  | cons hd rest ih =>
    intro s
    obtain ⟨x, y⟩ := hd
    rw [runJoy, specChangeCount, List.countP_cons, ih]
    by_cases h : (tickJoy lo hi vmax xmin xmax ymin ymax s x y).1.posX ≠ s.oldX ∨
        (tickJoy lo hi vmax xmin xmax ymin ymax s x y).1.posY ≠ s.oldY
    · have hc : constrain (s.posX + velFromSample lo hi vmax x) xmin xmax ≠ s.oldX ∨
          constrain (s.posY + velFromSample lo hi vmax y) ymin ymax ≠ s.oldY := by
        rwa [tickJoy_posX, tickJoy_posY] at h
      have hs : ((tickJoy lo hi vmax xmin xmax ymin ymax s x y).2.isSome) = true := by
        rw [tickJoy_emit lo hi vmax xmin xmax ymin ymax s x y hc]
        rfl
      rw [if_pos h, hs]
      simp [Nat.add_comm]
    · have hc : ¬(constrain (s.posX + velFromSample lo hi vmax x) xmin xmax ≠ s.oldX ∨
          constrain (s.posY + velFromSample lo hi vmax y) ymin ymax ≠ s.oldY) := by
        rwa [tickJoy_posX, tickJoy_posY] at h
      have hs : ((tickJoy lo hi vmax xmin xmax ymin ymax s x y).2.isSome) = false := by
        rw [tickJoy_skip lo hi vmax xmin xmax ymin ymax s x y hc]
        rfl
      rw [if_neg h, hs]
      simp

/-- Claim C6: a tick broadcasts the serialized position exactly when the
post-integration position differs from the last emitted one, updating
`oldX`/`oldY` to the emitted position; when the position equals the last
emitted one, nothing is sent and `oldX`/`oldY` are unchanged.  Over any
run, the number of broadcast messages equals the number of ticks whose
position changed (`specChangeCount`). -/
theorem C6_change_gated_broadcaster :
    (∀ (s : BusState) (x y : Int),
      ((tickTransporte s x y).2 = some (serializePos (tickTransporte s x y).1.posX
          (tickTransporte s x y).1.posY) ↔
        ((tickTransporte s x y).1.posX ≠ s.oldX ∨ (tickTransporte s x y).1.posY ≠ s.oldY)) ∧
      (((tickTransporte s x y).1.posX ≠ s.oldX ∨ (tickTransporte s x y).1.posY ≠ s.oldY) →
        (tickTransporte s x y).1.oldX = (tickTransporte s x y).1.posX ∧
        (tickTransporte s x y).1.oldY = (tickTransporte s x y).1.posY) ∧
      (((tickTransporte s x y).1.posX = s.oldX ∧ (tickTransporte s x y).1.posY = s.oldY) →
        (tickTransporte s x y).2 = none ∧ (tickTransporte s x y).1.oldX = s.oldX ∧
        (tickTransporte s x y).1.oldY = s.oldY)) ∧
    (∀ (s : BusState) (x y : Int),
      ((tickAutoVeloz s x y).2 = some (serializePos (tickAutoVeloz s x y).1.posX
          (tickAutoVeloz s x y).1.posY) ↔
        ((tickAutoVeloz s x y).1.posX ≠ s.oldX ∨ (tickAutoVeloz s x y).1.posY ≠ s.oldY)) ∧
      (((tickAutoVeloz s x y).1.posX ≠ s.oldX ∨ (tickAutoVeloz s x y).1.posY ≠ s.oldY) →
        (tickAutoVeloz s x y).1.oldX = (tickAutoVeloz s x y).1.posX ∧
        (tickAutoVeloz s x y).1.oldY = (tickAutoVeloz s x y).1.posY) ∧
      (((tickAutoVeloz s x y).1.posX = s.oldX ∧ (tickAutoVeloz s x y).1.posY = s.oldY) →
        (tickAutoVeloz s x y).2 = none ∧ (tickAutoVeloz s x y).1.oldX = s.oldX ∧
        (tickAutoVeloz s x y).1.oldY = s.oldY)) ∧
    (∀ (s0 : BusState) (inputs : List (Int × Int)),
      (runTransporte s0 inputs).countP (fun r => r.2.isSome) =
        specChangeCount 1800 2200 4 20 347 20 389 s0 inputs) ∧
    (∀ (s0 : BusState) (inputs : List (Int × Int)),
      (runAutoVeloz s0 inputs).countP (fun r => r.2.isSome) =
        specChangeCount 1500 2300 6 0 380 0 380 s0 inputs) :=
  ⟨fun s x y => tickJoy_gate 1800 2200 4 20 347 20 389 s x y,
   fun s x y => tickJoy_gate 1500 2300 6 0 380 0 380 s x y,
   fun s0 inputs => runJoy_countP 1800 2200 4 20 347 20 389 inputs s0,
   fun s0 inputs => runJoy_countP 1500 2300 6 0 380 0 380 inputs s0⟩

/-- Witness for C6 on a concrete tick. -/
theorem C6_change_gated_broadcaster_witness :
    (tickTransporte initTransporte 4095 0).1.oldX =
        (tickTransporte initTransporte 4095 0).1.posX ∧
    (tickTransporte initTransporte 4095 0).1.oldY =
        (tickTransporte initTransporte 4095 0).1.posY :=
  (C6_change_gated_broadcaster.1 initTransporte 4095 0).2.1 (by decide)

/-- Claim C9: on the first tick after boot with all velocities zero (both
samples at the dead-zone center), the position keeps its initial value,
which differs from the `(0, 0)` initializer of `oldX`/`oldY`, so the
broadcaster emits a message in both sketches. -/
theorem C9_first_tick_emits :
    initTransporte.posX = 211 ∧ initTransporte.posY = 205 ∧
    initTransporte.oldX = 0 ∧ initTransporte.oldY = 0 ∧
    initAutoVeloz.posX = 190 ∧ initAutoVeloz.posY = 190 ∧
    initAutoVeloz.oldX = 0 ∧ initAutoVeloz.oldY = 0 ∧
    velTransporte 2048 = 0 ∧ velAutoVeloz 2048 = 0 ∧
    (tickTransporte initTransporte 2048 2048).1.posX = 211 ∧
    (tickTransporte initTransporte 2048 2048).1.posY = 205 ∧
    (tickTransporte initTransporte 2048 2048).2 = some (serializePos 211 205) ∧
    (tickAutoVeloz initAutoVeloz 2048 2048).1.posX = 190 ∧
    (tickAutoVeloz initAutoVeloz 2048 2048).1.posY = 190 ∧
    (tickAutoVeloz initAutoVeloz 2048 2048).2 = some (serializePos 190 190) := by
  decide

/-! ### Claims about the Hysteresis Gate -/

lemma hystStep_change (b : Bool) (v : Int) (h : hystStep b v ≠ b) :
    (b = true ∧ hystStep b v = false ∧ v < 50) ∨
    (b = false ∧ hystStep b v = true ∧ v > 150) := by
  cases b with
  | false =>
    by_cases hv : v > UMBRAL_LLUVIA_ALTO
    · exact Or.inr ⟨rfl, by simp [hystStep, hv],
        by simpa [UMBRAL_LLUVIA_ALTO] using hv⟩
    · exact absurd (by simp [hystStep, hv]) h
  | true =>
    by_cases hv : v < UMBRAL_LLUVIA_BAJO
    · exact Or.inl ⟨rfl, by simp [hystStep, hv],
        by simpa [UMBRAL_LLUVIA_BAJO] using hv⟩
    · exact absurd (by simp [hystStep, hv]) h

lemma hystStep_band (b : Bool) (v : Int) (h1 : 50 ≤ v) (h2 : v ≤ 150) :
    hystStep b v = b := by
  have hc1 : ¬(v < UMBRAL_LLUVIA_BAJO ∧ b = true) := by
    simp only [UMBRAL_LLUVIA_BAJO]; rintro ⟨hv, _⟩; omega
  have hc2 : ¬(v > UMBRAL_LLUVIA_ALTO ∧ b = false) := by
    simp only [UMBRAL_LLUVIA_ALTO]; rintro ⟨hv, _⟩; omega
  simp [hystStep, hc1, hc2]

lemma hystStates_getD_zero (b : Bool) (vs : List Int) :
    (hystStates b vs).getD 0 true = b := by
  cases vs <;> rfl

lemma hystStates_succ (vs : List Int) :
    ∀ (b : Bool) (i : Nat), i < vs.length →
      (hystStates b vs).getD (i + 1) true =
        hystStep ((hystStates b vs).getD i true) (vs.getD i 0) := by
  induction vs with
  | nil => intro b i h; simp at h
  | cons v rest ih =>
    intro b i h
    cases i with
    | zero =>
      rw [hystStates, List.getD_cons_succ, List.getD_cons_zero, List.getD_cons_zero,
        hystStates_getD_zero]
    | succ n =>
      have hn : n < rest.length := by simpa using h
      simpa [hystStates] using ih (hystStep b v) n hn

lemma getD_chain (sts : List Bool) (i : Nat) :
    ∀ j, i + 1 ≤ j →
      (∀ k, i < k → k < j → sts.getD k true = sts.getD (k + 1) true) →
      sts.getD (i + 1) true = sts.getD j true := by
  intro j
  induction j with
  | zero => intro h _; omega
  | succ n ihn =>
    intro h hk
    rcases Nat.eq_or_lt_of_le h with he | hl
    · rw [he]
    · have h1 : i + 1 ≤ n := by omega
      have := ihn h1 (fun k hk1 hk2 => hk k hk1 (by omega))
      rw [this, hk n (by omega) (by omega)]

lemma mainWindowStep_flag (s : HouseState) (b : Int) :
    (mainWindowStep s b).ventana_lluvia_abierta = s.ventana_lluvia_abierta := by
  unfold mainWindowStep; split_ifs <;> rfl

lemma doorToggleStep_flag (s : HouseState) (r : Int) :
    (doorToggleStep s r).ventana_lluvia_abierta = s.ventana_lluvia_abierta := by
  unfold doorToggleStep; split_ifs <;> rfl

lemma rainWindowStep_flag (s : HouseState) (v : Int) :
    (rainWindowStep s v).ventana_lluvia_abierta =
      hystStep s.ventana_lluvia_abierta v := by
  unfold rainWindowStep hystStep; split_ifs <;> rfl

lemma houseLoop_flag (s : HouseState) (b r v : Int) :
    (houseLoop s b r v).ventana_lluvia_abierta =
      hystStep s.ventana_lluvia_abierta v := by
  unfold houseLoop
  rw [rainWindowStep_flag, doorToggleStep_flag, mainWindowStep_flag]

/-- Claim C4: the Hysteresis Gate starts OPEN (`true`), goes OPEN→CLOSED
exactly when the sample is below `50`, CLOSED→OPEN exactly when the sample
is above `150`, does not move for samples in `[50, 150]`, and is exactly
what the `loop()` of `src/Smart_house.ino` does to its flag; concretely,
from OPEN, sample `40` closes, then `100` changes nothing, then `160`
opens. -/
theorem C4_hysteresis_gate :
    ventanaLluviaAbiertaInit = true ∧
    (∀ v : Int, hystStep true v = false ↔ v < 50) ∧
    (∀ v : Int, hystStep false v = true ↔ v > 150) ∧
    (∀ (b : Bool) (v : Int), 50 ≤ v → v ≤ 150 → hystStep b v = b) ∧
    (∀ (s : HouseState) (b r v : Int),
      (houseLoop s b r v).ventana_lluvia_abierta =
        hystStep s.ventana_lluvia_abierta v) ∧
    hystStep true 40 = false ∧ hystStep false 100 = false ∧
    hystStep false 160 = true := by
  refine ⟨rfl, fun v => ⟨fun h => ?_, fun hv => ?_⟩, fun v => ⟨fun h => ?_, fun hv => ?_⟩,
    fun b v h1 h2 => hystStep_band b v h1 h2,
    fun s b r v => houseLoop_flag s b r v, by decide, by decide, by decide⟩
  · by_contra hv
    simp [hystStep, UMBRAL_LLUVIA_BAJO, UMBRAL_LLUVIA_ALTO, hv] at h
  · simp [hystStep, UMBRAL_LLUVIA_BAJO, hv]
  · by_contra hv
    simp [hystStep, UMBRAL_LLUVIA_BAJO, UMBRAL_LLUVIA_ALTO, hv] at h
  · simp [hystStep, UMBRAL_LLUVIA_BAJO, UMBRAL_LLUVIA_ALTO, hv]

/-- Witness for C4 at a concrete in-band sample. -/
theorem C4_hysteresis_gate_witness : hystStep true 100 = true :=
  C4_hysteresis_gate.2.2.2.1 true 100 (by decide) (by decide)

/-- Claim C5: along any sample sequence, a state change to CLOSED happens
only at a sample below `50` and a change to OPEN only at one above `150`
(so never inside the band `[50, 150]`), and between two consecutive state
changes there is a sample strictly beyond the threshold opposite to the
state reached by the first change. -/
theorem C5_no_chatter :
    ∀ (vs : List Int) (i : Nat),
      (i < vs.length →
        (hystStates true vs).getD i true ≠ (hystStates true vs).getD (i + 1) true →
        (((hystStates true vs).getD (i + 1) true = false ∧ vs.getD i 0 < 50) ∨
         ((hystStates true vs).getD (i + 1) true = true ∧ vs.getD i 0 > 150))) ∧
      (i < vs.length → 50 ≤ vs.getD i 0 → vs.getD i 0 ≤ 150 →
        (hystStates true vs).getD i true = (hystStates true vs).getD (i + 1) true) ∧
      (∀ j, i < j → j < vs.length →
        (hystStates true vs).getD i true ≠ (hystStates true vs).getD (i + 1) true →
        (hystStates true vs).getD j true ≠ (hystStates true vs).getD (j + 1) true →
        (∀ k, i < k → k < j →
          (hystStates true vs).getD k true = (hystStates true vs).getD (k + 1) true) →
        ∃ k, i < k ∧ k ≤ j ∧
          ((hystStates true vs).getD (i + 1) true = false → vs.getD k 0 > 150) ∧
          ((hystStates true vs).getD (i + 1) true = true → vs.getD k 0 < 50)) := by
  intro vs i
  refine ⟨fun hi hne => ?_, fun hi h1 h2 => ?_, fun j hij hj hci hcj hbetween => ?_⟩
  · rw [hystStates_succ vs true i hi] at hne ⊢
    rcases hystStep_change _ _ (Ne.symm hne) with ⟨_, hs, hv⟩ | ⟨_, hs, hv⟩
    · exact Or.inl ⟨hs, hv⟩
    · exact Or.inr ⟨hs, hv⟩
  · rw [hystStates_succ vs true i hi]
    exact (hystStep_band _ _ h1 h2).symm
  · have hpersist : (hystStates true vs).getD (i + 1) true =
        (hystStates true vs).getD j true :=
      getD_chain _ i j (by omega) hbetween
    rw [hystStates_succ vs true j hj] at hcj
    rcases hystStep_change _ _ (Ne.symm hcj) with ⟨ha, _, hv⟩ | ⟨ha, _, hv⟩
    · refine ⟨j, hij, le_refl j, fun hf => ?_, fun _ => hv⟩
      rw [hpersist, ha] at hf
      exact Bool.noConfusion hf
    · refine ⟨j, hij, le_refl j, fun _ => hv, fun ht => ?_⟩
      rw [hpersist, ha] at ht
      exact Bool.noConfusion ht

/-- Witness for C5 on the scenario run `[40, 100, 160]`. -/
theorem C5_no_chatter_witness :
    ∃ k, 0 < k ∧ k ≤ 2 ∧
      ((hystStates true ([40, 100, 160] : List Int)).getD 1 true = false →
        List.getD ([40, 100, 160] : List Int) k 0 > 150) ∧
      ((hystStates true ([40, 100, 160] : List Int)).getD 1 true = true →
        List.getD ([40, 100, 160] : List Int) k 0 < 50) :=
  (C5_no_chatter [40, 100, 160] 0).2.2 2 (by decide) (by decide) (by decide) (by decide)
    (fun k hk1 hk2 => by
      have hk : k = 1 := by omega
      subst hk
      decide)

/-! ### Claim C10: flag/servo agreement in the Smart House sketch -/

lemma mainWindowStep_rain (s : HouseState) (b : Int) :
    (mainWindowStep s b).rainServoAngle = s.rainServoAngle := by
  unfold mainWindowStep; split_ifs <;> rfl

lemma doorToggleStep_rain (s : HouseState) (r : Int) :
    (doorToggleStep s r).rainServoAngle = s.rainServoAngle := by
  unfold doorToggleStep; split_ifs <;> rfl

lemma rainWindowStep_inv (s : HouseState) (v : Int)
    (h : (s.ventana_lluvia_abierta = true ↔ s.rainServoAngle = OPEN_ANGLE_W) ∧
      (s.ventana_lluvia_abierta = false ↔ s.rainServoAngle = CLOSE_ANGLE_W)) :
    ((rainWindowStep s v).ventana_lluvia_abierta = true ↔
      (rainWindowStep s v).rainServoAngle = OPEN_ANGLE_W) ∧
    ((rainWindowStep s v).ventana_lluvia_abierta = false ↔
      (rainWindowStep s v).rainServoAngle = CLOSE_ANGLE_W) := by
  unfold rainWindowStep
  split_ifs with h1 h2
  · simp [OPEN_ANGLE_W, CLOSE_ANGLE_W]
  · simp [OPEN_ANGLE_W, CLOSE_ANGLE_W]
  · exact h

lemma houseLoop_inv (s : HouseState) (b r v : Int)
    (h : (s.ventana_lluvia_abierta = true ↔ s.rainServoAngle = OPEN_ANGLE_W) ∧
      (s.ventana_lluvia_abierta = false ↔ s.rainServoAngle = CLOSE_ANGLE_W)) :
    ((houseLoop s b r v).ventana_lluvia_abierta = true ↔
      (houseLoop s b r v).rainServoAngle = OPEN_ANGLE_W) ∧
    ((houseLoop s b r v).ventana_lluvia_abierta = false ↔
      (houseLoop s b r v).rainServoAngle = CLOSE_ANGLE_W) := by
  unfold houseLoop
  apply rainWindowStep_inv
  rw [doorToggleStep_flag, mainWindowStep_flag, doorToggleStep_rain, mainWindowStep_rain]
  exact h

lemma houseTrace_inv :
    ∀ (inputs : List (Int × Int × Int)) (s0 : HouseState),
      ((s0.ventana_lluvia_abierta = true ↔ s0.rainServoAngle = OPEN_ANGLE_W) ∧
        (s0.ventana_lluvia_abierta = false ↔ s0.rainServoAngle = CLOSE_ANGLE_W)) →
      ∀ s ∈ houseTrace s0 inputs,
        (s.ventana_lluvia_abierta = true ↔ s.rainServoAngle = OPEN_ANGLE_W) ∧
        (s.ventana_lluvia_abierta = false ↔ s.rainServoAngle = CLOSE_ANGLE_W) := by
  intro inputs
  induction inputs with
  | nil =>
    intro s0 h s hs
    rw [houseTrace, List.mem_singleton] at hs
    rwa [hs]
  | cons hd rest ih =>
    intro s0 h s hs
    obtain ⟨b, r, v⟩ := hd
    rw [houseTrace, List.mem_cons] at hs
    rcases hs with rfl | hs'
    · exact h
    · exact ih (houseLoop s0 b r v) (houseLoop_inv s0 b r v h) s hs'

/-- Claim C10: after setup and after every loop iteration of
`src/Smart_house.ino`, the flag `ventana_lluvia_abierta` is `true` exactly
when the angle last written to the rain-window servo is `OPEN_ANGLE_W`
(95), and `false` exactly when it is `CLOSE_ANGLE_W` (0). -/
theorem C10_rain_flag_matches_servo :
    ∀ (inputs : List (Int × Int × Int)) (s : HouseState),
      s ∈ houseTrace houseSetupState inputs →
      (s.ventana_lluvia_abierta = true ↔ s.rainServoAngle = OPEN_ANGLE_W) ∧
      (s.ventana_lluvia_abierta = false ↔ s.rainServoAngle = CLOSE_ANGLE_W) :=
  fun inputs s hs => houseTrace_inv inputs houseSetupState (by decide) s hs

/-- Witness for C10 on the trace of a concrete rainy-then-dry run. -/
theorem C10_rain_flag_matches_servo_witness :
    (houseSetupState.ventana_lluvia_abierta = true ↔
      houseSetupState.rainServoAngle = OPEN_ANGLE_W) ∧
    (houseSetupState.ventana_lluvia_abierta = false ↔
      houseSetupState.rainServoAngle = CLOSE_ANGLE_W) :=
  C10_rain_flag_matches_servo [(1, 1, 40)] houseSetupState (by decide)

/-! ### Claim C8: the Phase Sequencer -/

lemma loopFinal_allRed : loopFinal allRedState = allRedState := by decide

lemma afterLoops_allRed (n : Nat) : afterLoops allRedState n = allRedState := by
  induction n with
  | zero => rfl
  | succ m ih =>
    show loopFinal (afterLoops allRedState m) = allRedState
    rw [ih, loopFinal_allRed]

lemma afterLoops_setup (s : LampState) (n : Nat) :
    afterLoops (semaforosSetup s) n = allRedState := by
  have h : semaforosSetup s = allRedState := rfl
  rw [h, afterLoops_allRed]

lemma loopSegments_allRed_safe :
    ∀ p ∈ loopSegments allRedState, ¬ conflictingGreens p.1 := by decide

lemma semaforosTrace_safe (s : LampState) :
    ∀ (n : Nat), ∀ p ∈ semaforosTrace s n, ¬ conflictingGreens p.1 := by
  intro n
  induction n with
  | zero =>
    intro p hp
    rw [semaforosTrace, List.mem_singleton] at hp
    rw [hp]
    have h : semaforosSetup s = allRedState := rfl
    rw [h]
    decide
  | succ m ih =>
    intro p hp
    rw [semaforosTrace, List.mem_append] at hp
    rcases hp with hp | hp
    · exact ih p hp
    · rw [afterLoops_setup] at hp
      exact loopSegments_allRed_safe p hp

/-- Claim C8: from any power-on LED state, `setup()` leaves every signal
red before the first phase runs; no configuration displayed at any point of
the cycle shows the two conflicting avenue pairs green simultaneously; and
the configuration after the initial all-red dwell is the first green dwell:
S1/S2 green with their reds off, S3/S4 red with their greens off. -/
theorem C8_phase_sequencer :
    ∀ (s : LampState),
      semaforosSetup s = allRedState ∧
      (∀ (n : Nat), ∀ p ∈ semaforosTrace s n, ¬ conflictingGreens p.1) ∧
      ((semaforosTrace s 1).getD 1 (allRedState, 0)).2 = tiempo_verde ∧
      ((semaforosTrace s 1).getD 1 (allRedState, 0)).1.s1_verde = true ∧
      ((semaforosTrace s 1).getD 1 (allRedState, 0)).1.s2_verde = true ∧
      ((semaforosTrace s 1).getD 1 (allRedState, 0)).1.s1_rojo = false ∧
      ((semaforosTrace s 1).getD 1 (allRedState, 0)).1.s2_rojo = false ∧
      ((semaforosTrace s 1).getD 1 (allRedState, 0)).1.s1_amarillo = false ∧
      ((semaforosTrace s 1).getD 1 (allRedState, 0)).1.s2_amarillo = false ∧
      ((semaforosTrace s 1).getD 1 (allRedState, 0)).1.s3_verde = false ∧
      ((semaforosTrace s 1).getD 1 (allRedState, 0)).1.s4_verde = false ∧
      ((semaforosTrace s 1).getD 1 (allRedState, 0)).1.s3_rojo = true ∧
      ((semaforosTrace s 1).getD 1 (allRedState, 0)).1.s4_rojo = true := by
  intro s
  exact ⟨rfl, semaforosTrace_safe s, rfl, rfl, rfl, rfl, rfl, rfl, rfl, rfl, rfl, rfl, rfl⟩

/-- Witness for C8 on the boot configuration. -/
theorem C8_phase_sequencer_witness : ¬ conflictingGreens allRedState :=
  (C8_phase_sequencer allRedState).2.1 0 (allRedState, 2000) (by decide)
